import Mathlib

/-!
A shallow embedding, in Lean 4, of the permit-scraper pipeline
(`scraper.py`): its JSON-like value model, the dotted-path resolver
`get_nested_value`, the pydantic `PermitRecord` normalizer with its two
field validators, the SHA-256 based `generate_hash` fingerprint, the date
cutoff filter, the two extractors `scrape_api_source` / `scrape_html_source`,
and the source orchestration in `main`.  Python values flowing through the
pipeline are modelled by the inductive type `PyVal`; machine floats are
modelled by rationals; the external date parser (`dateutil`) is a parameter
of the definitions, with a concrete instance `dparseModel` used for
evaluation; the network fetch is modelled by an `Except` parameter holding
either the parsed body or a transport/HTTP failure.
-/

/-- A Python/JSON-like value: `None`, `bool`, `int`, `float` (modelled as a
rational), `str`, `list`, or `dict` (an insertion-ordered association list;
a later binding for the same key shadows an earlier one, as in a Python
`dict` built by successive assignment). -/
inductive PyVal where
  | none
  | bool (b : Bool)
  | int (n : Int)
  | float (q : ℚ)
  | str (s : String)
  | list (xs : List PyVal)
  | dict (kvs : List (String × PyVal))

/-- Lookup in a Python `dict` modelled as an association list with
last-write-wins semantics: the value of the latest binding of `k`,
or `none` when `k` is absent. -/
def pyGet (kvs : List (String × PyVal)) (k : String) : Option PyVal :=
  (kvs.reverse.find? (fun p => p.1 == k)).map (fun p => p.2)

/-- Embedding of Python `dict.get(key)` (default `None`): both a missing key
and a stored `None` come back as `PyVal.none`. -/
def dictGet (kvs : List (String × PyVal)) (k : String) : PyVal :=
  match pyGet kvs k with
  | Option.none => PyVal.none
  | Option.some v => v

/-- Embedding of Python `str.split(sep)` for a one-character separator:
structural recursion over the character list.  The empty string splits into
`[[]]`, i.e. one empty segment, exactly as in Python. -/
def splitChar (sep : Char) : List Char → List (List Char)
  | [] => [[]]
  | c :: rest =>
    if c = sep then [] :: splitChar sep rest
    else
      match splitChar sep rest with
      | [] => [[c]]
      | g :: gs => (c :: g) :: gs

/-- String-level wrapper for `splitChar`. -/
def stringSplitChar (sep : Char) (s : String) : List String :=
  (splitChar sep s.data).map String.mk

/-- The loop body of `get_nested_value` (scraper.py:92-103), over the list of
segments produced by `path.split(".")`: at each key, if the current value is a
dict, look the key up (missing key gives Python `None`); a non-dict current
value, or a `None` lookup result, ends resolution with `None`. -/
def getNestedGo : PyVal → List String → PyVal
  | v, [] => v
  | v, k :: ks =>
    match v with
    | PyVal.dict kvs =>
      match dictGet kvs k with
      | PyVal.none => PyVal.none
      | v2 => getNestedGo v2 ks
    | _ => PyVal.none

/-- Embedding of `get_nested_value(data, path)` (scraper.py:92-103), with
`path.split(".")` rendered by `stringSplitChar`; both turn the empty path
into the one-element list `[""]`. -/
def get_nested_value (data : PyVal) (path : String) : PyVal :=
  getNestedGo data (stringSplitChar '.' path)

/-- Modelled from the spec (section 4.1), for comparison with
`get_nested_value`: follow each segment through keyed mappings; a segment
applied to a non-mapping (including an absent/`None` current value) makes the
overall result absent; the empty segment list resolves to the container
itself. -/
def resolveSpec : PyVal → List String → PyVal
  | v, [] => v
  | v, k :: ks =>
    match v with
    | PyVal.dict kvs => resolveSpec (dictGet kvs k) ks
    | _ => PyVal.none

/-- Embedding of the call site `items = get_nested_value(data, list_path) if
list_path else data` (scraper.py:140): a falsy (empty) `list_path` bypasses
the resolver and uses the response body itself. -/
def api_items (data : PyVal) (list_path : String) : PyVal :=
  if list_path = "" then data else get_nested_value data list_path

lemma getNestedGo_eq_resolveSpec (ks : List String) :
    ∀ v : PyVal, getNestedGo v ks = resolveSpec v ks := by
  induction ks with
  | nil => intro v; rfl
  | cons k ks ih =>
    intro v
    cases v with
    | dict kvs =>
      show (match dictGet kvs k with
            | PyVal.none => PyVal.none
            | v2 => getNestedGo v2 ks) = resolveSpec (dictGet kvs k) ks
      cases h : dictGet kvs k with
      | none =>
        have : resolveSpec PyVal.none ks = PyVal.none := by
          cases ks with
          | nil => rfl
          | cons a as => rfl
        simp [this]
      | bool b => exact ih _
      | int n => exact ih _
      | float q => exact ih _
      | str s => exact ih _
      | list xs => exact ih _
      | dict kvs2 => exact ih _
    | none => rfl
    | bool b => rfl
    | int n => rfl
    | float q => rfl
    | str s => rfl
    | list xs => rfl

/-- A calendar date, as produced by the external date parser for the
date-only strings this pipeline handles. -/
structure DateYMD where
  year : Nat
  month : Nat
  day : Nat
deriving DecidableEq

/-- Modelled from the spec: the chronological order on the `datetime` values
compared by the cutoff filter, rendered as a day count (proleptic Gregorian
calendar, days since 1970-01-01, the standard days-from-civil computation).
A date-only string parses to midnight, i.e. to a whole day number. -/
def dateToNum (dt : DateYMD) : Int :=
  let y : Int := (dt.year : Int) - (if dt.month ≤ 2 then 1 else 0)
  let era : Int := (if 0 ≤ y then y else y - 399) / 400
  let yoe : Int := y - era * 400
  let mp : Int := ((dt.month : Int) + 9) % 12
  let doy : Int := (153 * mp + 2) / 5 + (dt.day : Int) - 1
  let doe : Int := yoe * 365 + yoe / 4 - yoe / 100 + doy
  era * 146097 + doe - 719468

/-- Left-pad the decimal rendering of `n` with zeros to width `w`
(the behavior of `strftime` field widths). -/
def padNum (n w : Nat) : String :=
  let s := toString n
  String.mk (List.replicate (w - s.length) '0') ++ s

/-- Embedding of `parsed.strftime("%Y-%m-%d")` (scraper.py:70): the year
zero-padded to four digits, month and day to two. -/
def formatYMD (dt : DateYMD) : String :=
  padNum dt.year 4 ++ "-" ++ padNum dt.month 2 ++ "-" ++ padNum dt.day 2

/-- The natural number denoted by an all-digit, nonempty character list
(`none` otherwise). -/
def decimalToNat? (cs : List Char) : Option Nat :=
  if !cs.isEmpty && cs.all Char.isDigit then
    some (cs.foldl (fun a c => a * 10 + (c.toNat - 48)) 0)
  else Option.none

/-- ASCII lowercasing, character by character. -/
def toLowerModel (s : String) : String :=
  String.mk (s.data.map (fun c =>
    if 'A' ≤ c && c ≤ 'Z' then Char.ofNat (c.toNat + 32) else c))

/-- Month-name lookup (case-insensitive), 1-based. -/
def monthIndex (s : String) : Option Nat :=
  (["january", "february", "march", "april", "may", "june", "july",
    "august", "september", "october", "november", "december"].findIdx?
      (fun m => m == toLowerModel s)).map (fun i => i + 1)

/-- Modelled from the spec: `dateutil.parser.parse` (a third-party library,
not part of this repository), restricted to the two shapes the spec
exercises - ISO `YYYY-MM-DD` and `Month DD, YYYY` - returning `none` on
anything else. Used as the concrete instance of the date-parser parameter. -/
def dparseModel (s : String) : Option DateYMD :=
  match stringSplitChar '-' s with
  | [ys, ms, ds] =>
    match decimalToNat? ys.data, decimalToNat? ms.data, decimalToNat? ds.data with
    | some y, some m, some d =>
      if 1 ≤ m && m ≤ 12 && 1 ≤ d && d ≤ 31 then some ⟨y, m, d⟩ else Option.none
    | _, _, _ => Option.none
  | _ =>
    match stringSplitChar ' ' s with
    | [mon, dayc, ys] =>
      match monthIndex mon with
      | some m =>
        match dayc.data.getLast? with
        | some ',' =>
          match decimalToNat? dayc.data.dropLast, decimalToNat? ys.data with
          | some d, some y =>
            if 1 ≤ d && d ≤ 31 then some ⟨y, m, d⟩ else Option.none
          | _, _ => Option.none
        | _ => Option.none
      | Option.none => Option.none
    | _ => Option.none

/-- Python truthiness for the values of `PyVal`. -/
def pyTruthy : PyVal → Bool
  | PyVal.none => false
  | PyVal.bool b => b
  | PyVal.int n => n != 0
  | PyVal.float q => q != 0
  | PyVal.str s => s != ""
  | PyVal.list xs => !xs.isEmpty
  | PyVal.dict kvs => !kvs.isEmpty

/-- Modelled from the spec: Python `str()` on scalar values; the container
cases are abbreviated placeholders (no claim exercises them) and the float
case uses the rational rendering rather than `repr` of a binary float. -/
def pyStr : PyVal → String
  | PyVal.none => "None"
  | PyVal.bool b => if b then "True" else "False"
  | PyVal.int n => toString n
  | PyVal.float q => toString q
  | PyVal.str s => s
  | PyVal.list _ => "<list>"
  | PyVal.dict _ => "<dict>"

/-- Whether a character is ASCII whitespace (the characters Python
`str.strip()` removes, up to its additional unicode whitespace). -/
def isPyWs (c : Char) : Bool :=
  c == ' ' || c == '\t' || c == '\n' || c == '\r' || c == '\x0b' || c == '\x0c'

/-- Embedding of Python `str.strip()`: drop whitespace from both ends. -/
def stripModel (s : String) : String :=
  String.mk (((s.data.dropWhile isPyWs).reverse.dropWhile isPyWs).reverse)

/-- Value of a digit string, most significant first. -/
def digitsToNat (cs : List Char) : Nat :=
  cs.foldl (fun a c => a * 10 + (c.toNat - 48)) 0

/-- Modelled from the spec: the Python builtin `float()` on the cleaned
string, restricted to finite decimal literals - optional sign, digits with an
optional fractional part, optional decimal exponent - with `none` on anything
else ("inf"/"nan" and underscore separators are outside this model; no claim
exercises them). -/
def pyFloatParse (s : String) : Option ℚ :=
  let cs := s.data
  let sgn : ℚ := match cs with
    | '-' :: _ => -1
    | _ => 1
  let cs1 := match cs with
    | '+' :: r => r
    | '-' :: r => r
    | _ => cs
  let ip := cs1.takeWhile Char.isDigit
  let cs2 := cs1.dropWhile Char.isDigit
  let fp := match cs2 with
    | '.' :: r => r.takeWhile Char.isDigit
    | _ => []
  let cs3 := match cs2 with
    | '.' :: r => r.dropWhile Char.isDigit
    | _ => cs2
  if ip.isEmpty && fp.isEmpty then Option.none
  else
    let mant : ℚ := (digitsToNat (ip ++ fp) : ℚ) / (10 : ℚ) ^ fp.length
    match cs3 with
    | [] => some (sgn * mant)
    | 'e' :: r | 'E' :: r =>
      let es : Int := match r with
        | '-' :: _ => -1
        | _ => 1
      let r1 := match r with
        | '+' :: r2 => r2
        | '-' :: r2 => r2
        | _ => r
      let ed := r1.takeWhile Char.isDigit
      let r2 := r1.dropWhile Char.isDigit
      if ed.isEmpty || !r2.isEmpty then Option.none
      else some (sgn * mant * (10 : ℚ) ^ (es * (digitsToNat ed : Int)))
    | _ => Option.none

/-- Embedding of the single-character `str.replace(pattern, "")` calls
(scraper.py:54): remove every occurrence of `c`. -/
def removeChar (c : Char) (s : String) : String :=
  String.mk (s.data.filter (fun a => a != c))

/-- The canonical permit record (scraper.py:26-42), with the pydantic field
defaults. `estimated_value` (a Python float) is modelled as a rational. -/
structure PermitRecord where
  permit_number : String := ""
  issue_date : Option String := Option.none
  work_class : String := ""
  description : String := ""
  address : String := ""
  city : String := ""
  state : String := ""
  zip : String := ""
  contractor : String := ""
  owner : String := ""
  estimated_value : Option ℚ := Option.none
  source_name : String := ""
  hash_id : String := ""
  scraped_at : String := ""
deriving DecidableEq

/-- Embedding of the `estimated_value` before-validator (scraper.py:44-59):
`None` and the empty string give `None`; numbers (including `bool`, a Python
`int` subclass) pass through as floats; strings are cleaned of every `$` and
`,`, stripped, and parsed by `float()`, with any failure giving `None`;
any other type gives `None`. It never raises. -/
def parse_estimated_value : PyVal → Option ℚ
  | PyVal.none => Option.none
  | PyVal.str s =>
    if s = "" then Option.none
    else
      let cleaned := stripModel (removeChar ',' (removeChar '$' s))
      if cleaned = "" then Option.none else pyFloatParse cleaned
  | PyVal.bool b => some (if b then 1 else 0)
  | PyVal.int n => some (n : ℚ)
  | PyVal.float q => some q
  | _ => Option.none

/-- Embedding of the `issue_date` before-validator (scraper.py:61-73), with
the external date parser as a parameter: `None` and the empty string give
`None`; a nonempty string is parsed and re-serialized as `YYYY-MM-DD`, and
kept verbatim when parsing fails; a non-string value becomes `str(v)` when
truthy and `None` otherwise. It never raises. -/
def parse_issue_date (dparse : String → Option DateYMD) : PyVal → Option String
  | PyVal.none => Option.none
  | PyVal.str s =>
    if s = "" then Option.none
    else
      match dparse s with
      | some d => some (formatYMD d)
      | Option.none => some s
  | v => if pyTruthy v then some (pyStr v) else Option.none

/-- Two to the 32nd, the word modulus of SHA-256. -/
def M32 : Nat := 4294967296

/-- Bitwise complement on 32-bit words represented as naturals. -/
def not32 (x : Nat) : Nat := x ^^^ 4294967295

/-- Right rotation of a 32-bit word. -/
def rotr32 (x k : Nat) : Nat := (x / 2 ^ k + x % 2 ^ k * 2 ^ (32 - k)) % M32

/-- SHA-256 big Sigma-0. -/
def bsig0 (x : Nat) : Nat := rotr32 x 2 ^^^ rotr32 x 13 ^^^ rotr32 x 22

/-- SHA-256 big Sigma-1. -/
def bsig1 (x : Nat) : Nat := rotr32 x 6 ^^^ rotr32 x 11 ^^^ rotr32 x 25

/-- SHA-256 small sigma-0. -/
def ssig0 (x : Nat) : Nat := rotr32 x 7 ^^^ rotr32 x 18 ^^^ x / 2 ^ 3

/-- SHA-256 small sigma-1. -/
def ssig1 (x : Nat) : Nat := rotr32 x 17 ^^^ rotr32 x 19 ^^^ x / 2 ^ 10

/-- The SHA-256 round constants (FIPS 180-4), in decimal. -/
def shaK : List Nat :=
  [1116352408, 1899447441, 3049323471, 3921009573, 961987163,
   1508970993, 2453635748, 2870763221, 3624381080, 310598401,
   607225278, 1426881987, 1925078388, 2162078206, 2614888103,
   3248222580, 3835390401, 4022224774, 264347078, 604807628,
   770255983, 1249150122, 1555081692, 1996064986, 2554220882,
   2821834349, 2952996808, 3210313671, 3336571891, 3584528711,
   113926993, 338241895, 666307205, 773529912, 1294757372,
   1396182291, 1695183700, 1986661051, 2177026350, 2456956037,
   2730485921, 2820302411, 3259730800, 3345764771, 3516065817,
   3600352804, 4094571909, 275423344, 430227734, 506948616,
   659060556, 883997877, 958139571, 1322822218, 1537002063,
   1747873779, 1955562222, 2024104815, 2227730452, 2361852424,
   2428436474, 2756734187, 3204031479, 3329325298]

/-- The SHA-256 initial hash value (FIPS 180-4), in decimal. -/
def shaH0 : List Nat :=
  [1779033703, 3144134277, 1013904242, 2773480762,
   1359893119, 2600822924, 528734635, 1541459225]

/-- Big-endian byte rendering of `x` in `n` bytes. -/
def toBytesBE (n x : Nat) : List Nat :=
  (List.range n).map (fun i => x / 2 ^ (8 * (n - 1 - i)) % 256)

/-- The big-endian 32-bit word starting at byte offset `i`. -/
def wordBE (bytes : List Nat) (i : Nat) : Nat :=
  bytes.getD i 0 * 16777216 + bytes.getD (i + 1) 0 * 65536 +
    bytes.getD (i + 2) 0 * 256 + bytes.getD (i + 3) 0

/-- SHA-256 message padding: append `0x80`, zeros to 56 mod 64, and the
bit length as a 64-bit big-endian integer. -/
def padMessage (msg : List Nat) : List Nat :=
  msg ++ [128] ++ List.replicate ((55 + 64 - msg.length % 64) % 64) 0 ++
    toBytesBE 8 (8 * msg.length)

/-- The SHA-256 message schedule of one 64-byte block: sixteen big-endian
words extended to sixty-four. -/
def shaSchedule (block : List Nat) : List Nat :=
  let w0 := (List.range 16).map (fun i => wordBE block (4 * i))
  (List.range 48).foldl (fun w _ =>
    let n := w.length
    w ++ [(w.getD (n - 16) 0 + ssig0 (w.getD (n - 15) 0) + w.getD (n - 7) 0 +
           ssig1 (w.getD (n - 2) 0)) % M32]) w0

/-- The SHA-256 compression function on one 64-byte block. -/
def shaCompress (hs : List Nat) (block : List Nat) : List Nat :=
  let w := shaSchedule block
  let st := (List.range 64).foldl (fun st i =>
    match st with
    | [a, b, c, d, e, f, g, h] =>
      let t1 := (h + bsig1 e + ((e &&& f) ^^^ (not32 e &&& g)) +
                 shaK.getD i 0 + w.getD i 0) % M32
      let t2 := (bsig0 a + ((a &&& b) ^^^ (a &&& c) ^^^ (b &&& c))) % M32
      [(t1 + t2) % M32, a, b, c, (d + t1) % M32, e, f, g]
    | other => other) hs
  List.zipWith (fun x y => (x + y) % M32) hs st

/-- Iterate the compression function over the 64-byte blocks of a padded
message. -/
def shaBlocks (hs : List Nat) : List Nat → List Nat
  | [] => hs
  | b :: rest => shaBlocks (shaCompress hs ((b :: rest).take 64)) ((b :: rest).drop 64)
termination_by l => l.length
decreasing_by
  simp only [List.drop, List.length_drop, List.length_cons]
  omega

/-- The hexadecimal digit of value `n`: `0`-`9` then `a`-`f`. -/
def hexDigit (n : Nat) : Char :=
  if n < 10 then Char.ofNat (48 + n) else Char.ofNat (87 + n)

/-- Lowercase hexadecimal rendering of `x` in `w` digits. -/
def toHex (x w : Nat) : String :=
  String.mk ((List.range w).map (fun i => hexDigit (x / 16 ^ (w - 1 - i) % 16)))

/-- The UTF-8 encoding of one character, as byte values. -/
def utf8EncodeCharModel (c : Char) : List Nat :=
  let n := c.toNat
  if n < 128 then [n]
  else if n < 2048 then [192 + n / 64, 128 + n % 64]
  else if n < 65536 then [224 + n / 4096, 128 + n / 64 % 64, 128 + n % 64]
  else [240 + n / 262144, 128 + n / 4096 % 64, 128 + n / 64 % 64, 128 + n % 64]

/-- The UTF-8 bytes of a string (the `str.encode()` call in
`generate_hash`). -/
def utf8Bytes (s : String) : List Nat :=
  (s.data.map utf8EncodeCharModel).flatten

/-- Embedding of `hashlib.sha256(...).hexdigest()`: the SHA-256 digest of the
UTF-8 bytes of `s`, as 64 lowercase hex characters. -/
def sha256hex (s : String) : String :=
  String.join ((shaBlocks shaH0 (padMessage (utf8Bytes s))).map (fun x => toHex x 8))

/-- Embedding of `unique_str = f"{permit_number}|{address}|{source_name}"`
(scraper.py:77). -/
def uniqueStr (r : PermitRecord) : String :=
  r.permit_number ++ "|" ++ r.address ++ "|" ++ r.source_name

/-- Embedding of `PermitRecord.generate_hash` (scraper.py:75-78): the first
sixteen hex characters of the SHA-256 digest of the joined triple. -/
def PermitRecord.generate_hash (r : PermitRecord) : String :=
  (sha256hex (uniqueStr r)).take 16

/-- Validation of one pydantic `str`-typed field with default `""` under
pydantic v2: an absent key takes the default, a provided string is accepted
as is, and any other provided value (including `None`) is a validation
error - pydantic v2 does not coerce numbers or `None` to `str`. -/
def vStr : Option PyVal → Option String
  | Option.none => some ""
  | some (PyVal.str s) => some s
  | some _ => Option.none

/-- The `issue_date` a construction from `kvs` produces: the field default
`None` when the key is absent, otherwise the before-validator's output. -/
def issueField (dparse : String → Option DateYMD)
    (kvs : List (String × PyVal)) : Option String :=
  match pyGet kvs "issue_date" with
  | Option.none => Option.none
  | some v => parse_issue_date dparse v

/-- The `estimated_value` a construction from `kvs` produces: the field
default `None` when the key is absent, otherwise the before-validator's
output. -/
def estField (kvs : List (String × PyVal)) : Option ℚ :=
  match pyGet kvs "estimated_value" with
  | Option.none => Option.none
  | some v => parse_estimated_value v

/-- Embedding of `PermitRecord(**record_data)` under pydantic v2 semantics:
every `str`-typed field is validated by `vStr` (a failure on any of them
makes the whole construction fail, which callers catch and turn into a
skipped record), while `issue_date` and `estimated_value` run their
`mode="before"` validators, which never fail; defaults are not validated.
Unknown keys in `record_data` are ignored (pydantic's default
`extra="ignore"`). -/
def buildRecord (dparse : String → Option DateYMD)
    (kvs : List (String × PyVal)) : Option PermitRecord :=
  match vStr (pyGet kvs "permit_number"), vStr (pyGet kvs "work_class"),
        vStr (pyGet kvs "description"), vStr (pyGet kvs "address"),
        vStr (pyGet kvs "city"), vStr (pyGet kvs "state"),
        vStr (pyGet kvs "zip"), vStr (pyGet kvs "contractor"),
        vStr (pyGet kvs "owner"), vStr (pyGet kvs "source_name"),
        vStr (pyGet kvs "hash_id"), vStr (pyGet kvs "scraped_at") with
  | some permit_number, some work_class, some description, some address,
    some city, some state, some zip, some contractor, some owner,
    some source_name, some hash_id, some scraped_at =>
    some { permit_number, issue_date := issueField dparse kvs, work_class,
           description, address, city, state, zip, contractor, owner,
           estimated_value := estField kvs, source_name, hash_id, scraped_at }
  | _, _, _, _, _, _, _, _, _, _, _, _ => Option.none

/-- Embedding of the per-record date filter (scraper.py:164-171, repeated at
227-233): a falsy `issue_date` (absent, or the empty string) skips the
filter; otherwise the string is re-parsed, a parse failure keeps the record,
and a parsed date strictly earlier than the cutoff drops it. `cutoff` is a
point in time in days (`datetime.now() - timedelta(days=days_back)`), and a
parsed date-only string sits at midnight, `dateToNum`. -/
def date_cutoff_keep (dparse : String → Option DateYMD) (cutoff : ℚ)
    (issue : Option String) : Bool :=
  match issue with
  | Option.none => true
  | some s =>
    if s = "" then true
    else
      match dparse s with
      | Option.none => true
      | some d => !(decide ((dateToNum d : ℚ) < cutoff))

/-- A source descriptor as consumed by the extractors and `main`: the result
of the `source.get(...)` reads in scraper.py:123-128, 188-192 and 287-289.
`name` and `mode` keep their absent/present distinction because their
defaults ("Unknown", "api") apply only to an absent key; the other fields
fold the absent case into their falsy default, exactly as the code's
`source.get(key, default)` does. `headers` and `params` are omitted: they
are only forwarded to the fetch collaborator, which this embedding replaces
by its outcome. -/
structure Source where
  name : Option String := Option.none
  mode : Option String := Option.none
  url : String := ""
  list_path : String := ""
  mapping : List (String × String) := []
  row_selector : String := ""
  fields : List (String × String) := []

/-- One HTML row as seen through `row.css(sel).getall()` (parsel, external):
for each field selector, the list of matched text fragments; a selector with
no matches yields `[]`. -/
def Row := List (String × List String)

/-- The fragments a selector yields on a row. -/
def rowGet (row : Row) (sel : String) : List String :=
  match row.find? (fun p => p.1 == sel) with
  | some p => p.2
  | Option.none => []

/-- Embedding of scraper.py:219: trim each fragment, drop the empty ones,
and join with single spaces (the empty fragment list also gives `""`). -/
def joinFragments (vals : List String) : String :=
  String.intercalate " " ((vals.map stripModel).filter (fun s => !(s == "")))

/-- The loop body of `scrape_api_source` (scraper.py:146-175) for one item:
a non-dict item is skipped; a dict item is mapped through `mapping` via
`get_nested_value` into `record_data` (on top of `source_name` and
`scraped_at`, which a mapping entry of the same name would overwrite),
normalized by `buildRecord` (a validation failure skips the item), given its
recomputed `hash_id`, and kept subject to the date cutoff. -/
def api_process_item (dparse : String → Option DateYMD) (cutoff : ℚ)
    (source_name nowIso : String) (mapping : List (String × String))
    (item : PyVal) : Option PermitRecord :=
  match item with
  | PyVal.dict _ =>
    let record_data :=
      ("source_name", PyVal.str source_name) ::
      ("scraped_at", PyVal.str nowIso) ::
      mapping.map (fun fp => (fp.1, get_nested_value item fp.2))
    match buildRecord dparse record_data with
    | Option.none => Option.none
    | some r0 =>
      let r := { r0 with hash_id := r0.generate_hash }
      if date_cutoff_keep dparse cutoff r.issue_date then some r
      else Option.none
  | _ => Option.none

/-- Embedding of `scrape_api_source` (scraper.py:120-182).  The wall clock is
the parameter `now` (in days) with ISO rendering `nowIso`; the fetch plus
JSON-parse step is the parameter `fetched` - `Except.error` stands for a
transport failure, a non-success HTTP status, or an unparsable body, all
caught by the function's outer `try/except`, which discards the source.  A
missing `url` returns no records before any fetch. -/
def scrape_api_source (dparse : String → Option DateYMD) (now : ℚ)
    (nowIso : String) (source : Source) (days_back : ℤ)
    (fetched : Except Unit PyVal) : List PermitRecord :=
  let source_name := source.name.getD "Unknown"
  if source.url = "" then []
  else
    match fetched with
    | Except.error _ => []
    | Except.ok data =>
      let items := api_items data source.list_path
      let itemList : List PyVal :=
        match items with
        | PyVal.list xs => xs
        | v => if pyTruthy v then [v] else []
      itemList.filterMap
        (api_process_item dparse (now - (days_back : ℚ)) source_name nowIso
          source.mapping)

/-- The loop body of `scrape_html_source` (scraper.py:210-237) for one row:
each field selector's fragments are trimmed and space-joined into a string
value of `record_data` (on top of `source_name` and `scraped_at`, which a
field entry of the same name would overwrite); the row is then normalized by
`buildRecord` (a validation failure skips it), given its recomputed
`hash_id`, and kept subject to the date cutoff.  The fetch plus CSS row
selection is modelled upstream by an `Except` whose `ok` value is the row
list produced by `selector.css(row_selector)`, `Except.error` standing for a
transport failure or non-success status. -/
def html_process_row (dparse : String → Option DateYMD) (cutoff : ℚ)
    (source_name nowIso : String) (fields : List (String × String))
    (row : Row) : Option PermitRecord :=
  let record_data :=
    ("source_name", PyVal.str source_name) ::
    ("scraped_at", PyVal.str nowIso) ::
    fields.map (fun fs => (fs.1, PyVal.str (joinFragments (rowGet row fs.2))))
  match buildRecord dparse record_data with
  | Option.none => Option.none
  | some r0 =>
    let r := { r0 with hash_id := r0.generate_hash }
    if date_cutoff_keep dparse cutoff r.issue_date then some r
    else Option.none

/-- Embedding of `scrape_html_source` (scraper.py:185-244), continued: a
missing `url` or `row_selector` returns no records before any fetch;
otherwise each selected row is processed by `html_process_row`. -/
def scrape_html_source (dparse : String → Option DateYMD) (now : ℚ)
    (nowIso : String) (source : Source) (days_back : ℤ)
    (fetched : Except Unit (List Row)) : List PermitRecord :=
  let source_name := source.name.getD "Unknown"
  if source.url = "" then []
  else if source.row_selector = "" then []
  else
    match fetched with
    | Except.error _ => []
    | Except.ok rows =>
      rows.filterMap
        (html_process_row dparse (now - (days_back : ℚ)) source_name nowIso
          source.fields)

/-- One configured source together with what its fetch would return in each
mode (the mode actually dispatched decides which side is consulted). -/
structure SourceRun where
  src : Source
  apiFetch : Except Unit PyVal := Except.error ()
  htmlFetch : Except Unit (List Row) := Except.error ()

/-- The per-source dispatch of `main` (scraper.py:287-298): `mode` defaults
to "api" when the key is absent; an unrecognized mode contributes no
records. -/
def dispatchSource (dparse : String → Option DateYMD) (now : ℚ)
    (nowIso : String) (days_back : ℤ) (sr : SourceRun) : List PermitRecord :=
  match sr.src.mode.getD "api" with
  | "api" => scrape_api_source dparse now nowIso sr.src days_back sr.apiFetch
  | "html" => scrape_html_source dparse now nowIso sr.src days_back sr.htmlFetch
  | _ => []

/-- The aggregation loop of `main` (scraper.py:283-303): sources are
processed in order and their records concatenated into `all_records`, which
is then exported as is - `main` applies no further grouping, deduplication,
or filtering before writing the CSV and JSON payload (scraper.py:303-321). -/
def run_sources (dparse : String → Option DateYMD) (now : ℚ) (nowIso : String)
    (runs : List SourceRun) (days_back : ℤ) : List PermitRecord :=
  (runs.map (dispatchSource dparse now nowIso days_back)).flatten

/-- The identity triple a record's fingerprint is computed over. -/
def recTriple (r : PermitRecord) : String × String × String :=
  (r.permit_number, r.address, r.source_name)

/-- Whether one provided field value passes pydantic v2 `str` validation
(absent, or an actual string). -/
def strOkB (o : Option PyVal) : Bool := (vStr o).isSome

/-- The string a `str`-typed field ends up holding: the provided string, or
the default `""` when the key is absent. -/
def vStrD (o : Option PyVal) : String := (vStr o).getD ""

/-- The `str`-typed fields of `PermitRecord` (every field besides
`issue_date` and `estimated_value`). -/
def strFieldKeys : List String :=
  ["permit_number", "work_class", "description", "address", "city", "state",
   "zip", "contractor", "owner", "source_name", "hash_id", "scraped_at"]

/-- Whether a raw field-value mapping passes validation of every `str`-typed
field. -/
def allStrOk (kvs : List (String × PyVal)) : Bool :=
  strFieldKeys.all (fun k => strOkB (pyGet kvs k))

lemma buildRecord_char (dparse : String → Option DateYMD)
    (kvs : List (String × PyVal)) :
    buildRecord dparse kvs =
      if allStrOk kvs then
        some { permit_number := vStrD (pyGet kvs "permit_number"),
               issue_date := issueField dparse kvs,
               work_class := vStrD (pyGet kvs "work_class"),
               description := vStrD (pyGet kvs "description"),
               address := vStrD (pyGet kvs "address"),
               city := vStrD (pyGet kvs "city"),
               state := vStrD (pyGet kvs "state"),
               zip := vStrD (pyGet kvs "zip"),
               contractor := vStrD (pyGet kvs "contractor"),
               owner := vStrD (pyGet kvs "owner"),
               estimated_value := estField kvs,
               source_name := vStrD (pyGet kvs "source_name"),
               hash_id := vStrD (pyGet kvs "hash_id"),
               scraped_at := vStrD (pyGet kvs "scraped_at") }
      else Option.none := by
  unfold buildRecord
  simp only [allStrOk, strFieldKeys, List.all_cons, List.all_nil, Bool.and_true]
  rcases h1 : vStr (pyGet kvs "permit_number") with _ | x1
  · simp [strOkB, h1]
  rcases h2 : vStr (pyGet kvs "work_class") with _ | x2
  · simp [strOkB, h1, h2]
  rcases h3 : vStr (pyGet kvs "description") with _ | x3
  · simp [strOkB, h1, h2, h3]
  rcases h4 : vStr (pyGet kvs "address") with _ | x4
  · simp [strOkB, h1, h2, h3, h4]
  rcases h5 : vStr (pyGet kvs "city") with _ | x5
  · simp [strOkB, h1, h2, h3, h4, h5]
  rcases h6 : vStr (pyGet kvs "state") with _ | x6
  · simp [strOkB, h1, h2, h3, h4, h5, h6]
  rcases h7 : vStr (pyGet kvs "zip") with _ | x7
  · simp [strOkB, h1, h2, h3, h4, h5, h6, h7]
  rcases h8 : vStr (pyGet kvs "contractor") with _ | x8
  · simp [strOkB, h1, h2, h3, h4, h5, h6, h7, h8]
  rcases h9 : vStr (pyGet kvs "owner") with _ | x9
  · simp [strOkB, h1, h2, h3, h4, h5, h6, h7, h8, h9]
  rcases h10 : vStr (pyGet kvs "source_name") with _ | x10
  · simp [strOkB, h1, h2, h3, h4, h5, h6, h7, h8, h9, h10]
  rcases h11 : vStr (pyGet kvs "hash_id") with _ | x11
  · simp [strOkB, h1, h2, h3, h4, h5, h6, h7, h8, h9, h10, h11]
  rcases h12 : vStr (pyGet kvs "scraped_at") with _ | x12
  · simp [strOkB, h1, h2, h3, h4, h5, h6, h7, h8, h9, h10, h11, h12]
  simp [strOkB, vStrD, issueField, estField,
        h1, h2, h3, h4, h5, h6, h7, h8, h9, h10, h11, h12]

lemma buildRecord_some_source_name (dparse : String → Option DateYMD)
    (kvs : List (String × PyVal)) (r : PermitRecord)
    (h : buildRecord dparse kvs = some r) :
    r.source_name = vStrD (pyGet kvs "source_name") := by
  rw [buildRecord_char] at h
  by_cases hok : allStrOk kvs = true
  · rw [if_pos hok] at h
    cases h
    rfl
  · rw [if_neg hok] at h
    cases h

lemma generate_hash_congr (r1 r2 : PermitRecord)
    (hp : r1.permit_number = r2.permit_number) (ha : r1.address = r2.address)
    (hs : r1.source_name = r2.source_name) :
    r1.generate_hash = r2.generate_hash := by
  unfold PermitRecord.generate_hash uniqueStr
  rw [hp, ha, hs]

lemma generate_hash_set_hash_id (r : PermitRecord) (h : String) :
    PermitRecord.generate_hash { r with hash_id := h } = r.generate_hash := rfl

lemma append_sep_inj (c : Char) :
    ∀ a a' b b' : List Char, c ∉ a → c ∉ a' →
      a ++ c :: b = a' ++ c :: b' → a = a' ∧ b = b' := by
  intro a
  induction a with
  | nil =>
    intro a' b b' _ ha' heq
    cases a' with
    | nil =>
      refine ⟨rfl, ?_⟩
      simpa using heq
    | cons y ys =>
      exfalso
      have hy : c = y := by
        have := congrArg (fun l => l.head?) heq
        simpa using this
      exact ha' (hy ▸ List.mem_cons_self y ys)
  | cons x xs ih =>
    intro a' b b' ha ha' heq
    cases a' with
    | nil =>
      exfalso
      have hx : x = c := by
        have := congrArg (fun l => l.head?) heq
        simpa using this
      exact ha (hx ▸ List.mem_cons_self x xs)
    | cons y ys =>
      have hxy : x = y := by
        have := congrArg (fun l => l.head?) heq
        simpa using this
      have htl : xs ++ c :: b = ys ++ c :: b' := by
        have := congrArg (fun l => l.tail) heq
        simpa using this
      have hmem : c ∉ xs := fun hc => ha (List.mem_cons_of_mem x hc)
      have hmem' : c ∉ ys := fun hc => ha' (List.mem_cons_of_mem y hc)
      obtain ⟨h1, h2⟩ := ih ys b b' hmem hmem' htl
      exact ⟨by rw [hxy, h1], h2⟩

lemma uniqueStr_data (r : PermitRecord) :
    (uniqueStr r).data =
      r.permit_number.data ++ '|' :: (r.address.data ++ '|' :: r.source_name.data) := by
  have hbar : ("|" : String).data = ['|'] := rfl
  simp [uniqueStr, String.data_append, hbar]

lemma uniqueStr_inj (r1 r2 : PermitRecord)
    (hp1 : '|' ∉ r1.permit_number.data) (hp2 : '|' ∉ r2.permit_number.data)
    (ha1 : '|' ∉ r1.address.data) (ha2 : '|' ∉ r2.address.data)
    (heq : uniqueStr r1 = uniqueStr r2) :
    r1.permit_number = r2.permit_number ∧ r1.address = r2.address ∧
      r1.source_name = r2.source_name := by
  have hd := congrArg String.data heq
  rw [uniqueStr_data, uniqueStr_data] at hd
  obtain ⟨h1, hrest⟩ := append_sep_inj '|' _ _ _ _ hp1 hp2 hd
  obtain ⟨h2, h3⟩ := append_sep_inj '|' _ _ _ _ ha1 ha2 hrest
  exact ⟨String.ext h1, String.ext h2, String.ext h3⟩

lemma api_process_item_some (dparse : String → Option DateYMD) (cutoff : ℚ)
    (sn iso : String) (mapping : List (String × String)) (item : PyVal)
    (r : PermitRecord)
    (h : api_process_item dparse cutoff sn iso mapping item = some r) :
    ∃ r0, buildRecord dparse
        (("source_name", PyVal.str sn) :: ("scraped_at", PyVal.str iso) ::
          mapping.map (fun fp => (fp.1, get_nested_value item fp.2))) = some r0 ∧
      r = { r0 with hash_id := r0.generate_hash } := by
  cases item with
  | dict kvs =>
    simp only [api_process_item] at h
    cases hb : buildRecord dparse
        (("source_name", PyVal.str sn) :: ("scraped_at", PyVal.str iso) ::
          mapping.map (fun fp => (fp.1, get_nested_value (PyVal.dict kvs) fp.2))) with
    | none => rw [hb] at h; exact absurd h (by simp)
    | some r0 =>
      rw [hb] at h
      dsimp only at h
      refine ⟨r0, rfl, ?_⟩
      by_cases hk : date_cutoff_keep dparse cutoff r0.issue_date = true
      · rw [if_pos hk] at h
        exact (Option.some.inj h).symm
      · rw [if_neg hk] at h
        cases h
  | none => cases h
  | bool b => cases h
  | int n => cases h
  | float q => cases h
  | str s => cases h
  | list xs => cases h

lemma html_process_row_some (dparse : String → Option DateYMD) (cutoff : ℚ)
    (sn iso : String) (fields : List (String × String)) (row : Row)
    (r : PermitRecord)
    (h : html_process_row dparse cutoff sn iso fields row = some r) :
    ∃ r0, buildRecord dparse
        (("source_name", PyVal.str sn) :: ("scraped_at", PyVal.str iso) ::
          fields.map (fun fs => (fs.1, PyVal.str (joinFragments (rowGet row fs.2))))) = some r0 ∧
      r = { r0 with hash_id := r0.generate_hash } := by
  simp only [html_process_row] at h
  cases hb : buildRecord dparse
      (("source_name", PyVal.str sn) :: ("scraped_at", PyVal.str iso) ::
        fields.map (fun fs => (fs.1, PyVal.str (joinFragments (rowGet row fs.2))))) with
  | none => rw [hb] at h; exact absurd h (by simp)
  | some r0 =>
    rw [hb] at h
    dsimp only at h
    refine ⟨r0, rfl, ?_⟩
    by_cases hk : date_cutoff_keep dparse cutoff r0.issue_date = true
    · rw [if_pos hk] at h
      exact (Option.some.inj h).symm
    · rw [if_neg hk] at h
      cases h

lemma pyGet_source_name (v0 v1 : PyVal) (tail : List (String × PyVal))
    (ht : ∀ p ∈ tail, p.1 ≠ "source_name") :
    pyGet (("source_name", v0) :: ("scraped_at", v1) :: tail) "source_name"
      = some v0 := by
  unfold pyGet
  have h1 : (("source_name", v0) :: ("scraped_at", v1) :: tail).reverse
      = (tail.reverse ++ [("scraped_at", v1)]) ++ [("source_name", v0)] := by
    simp
  rw [h1, List.find?_append, List.find?_append]
  have ht' : tail.reverse.find? (fun p => p.1 == "source_name") = Option.none := by
    rw [List.find?_eq_none]
    intro p hp
    simp only [List.mem_reverse] at hp
    simpa using ht p hp
  rw [ht']
  have e1 : (("scraped_at" : String) == "source_name") = false := by decide
  have e2 : (("source_name" : String) == "source_name") = true := by decide
  simp [List.find?, e1, e2]

/-- Claim C3 (counterexample): `get_nested_value` applied to the empty path
does not return the container itself.  `"".split(".")` is `[""]`, so the
empty-string key is looked up in the container and found absent: on the
container `{"a": 1}` the result is `None`, not the container. -/
theorem empty_path_not_container :
    get_nested_value (PyVal.dict [("a", PyVal.int 1)]) "" = PyVal.none ∧
      PyVal.dict [("a", PyVal.int 1)] ≠ PyVal.none :=
  ⟨rfl, fun h => nomatch h⟩

/-- Claim C3 (amended): for every container and dotted path,
`get_nested_value` returns exactly what the spec's resolver computes on the
split segment list - following each segment in order through keyed mappings
and going absent (`None`), without raising, the first time a segment is
missing or the current value is not a keyed mapping (including `None`).  The
empty path, however, splits into one empty segment and is looked up as a
key; the resolves-to-the-container behavior for an empty list path is
implemented at the call site (`api_items`), which bypasses the resolver when
`list_path` is falsy. -/
theorem get_nested_value_follows_segments :
    (∀ (d : PyVal) (p : String),
        get_nested_value d p = resolveSpec d (stringSplitChar '.' p)) ∧
      ∀ d : PyVal, api_items d "" = d :=
  ⟨fun d p => getNestedGo_eq_resolveSpec (stringSplitChar '.' p) d, fun _ => rfl⟩

/-- The two records of the `generate_hash` collision: their identity triples
differ in every one of the first two components, yet the `|`-joined strings
coincide ("a|b|c|d"). -/
def collA : PermitRecord := { permit_number := "a|b", address := "c", source_name := "d" }

/-- Companion record to `collA`; see there. -/
def collB : PermitRecord := { permit_number := "a", address := "b|c", source_name := "d" }

/-- Claim C4 (counterexample): the separator joining the three components CAN
produce a collision between distinguishable inputs - two records with
different (permit_number, address) but the same joined string "a|b|c|d" get
the same hash. -/
theorem generate_hash_separator_collision :
    collA.generate_hash = collB.generate_hash ∧
      collA.permit_number ≠ collB.permit_number := by
  constructor
  · have h : uniqueStr collA = uniqueStr collB := by decide
    unfold PermitRecord.generate_hash
    rw [h]
  · decide

/-- Claim C4 (amended): `generate_hash` is deterministic - equal
(permit_number, address, source_name) triples always yield equal hashes -
and, for records whose permit_number and address are free of the separator
`|`, distinct triples always produce distinct digest inputs (`uniqueStr` is
injective on such records; distinctness of the truncated SHA-256 digests
themselves then rests on the collision resistance of SHA-256, and the
separator can collide distinguishable inputs when a component contains `|`,
as the counterexample shows). -/
theorem generate_hash_deterministic_sep_free (r1 r2 : PermitRecord)
    (hp1 : '|' ∉ r1.permit_number.data) (hp2 : '|' ∉ r2.permit_number.data)
    (ha1 : '|' ∉ r1.address.data) (ha2 : '|' ∉ r2.address.data) :
    (recTriple r1 = recTriple r2 → r1.generate_hash = r2.generate_hash) ∧
      (uniqueStr r1 = uniqueStr r2 → recTriple r1 = recTriple r2) := by
  constructor
  · intro h
    simp only [recTriple, Prod.mk.injEq] at h
    exact generate_hash_congr r1 r2 h.1 h.2.1 h.2.2
  · intro h
    obtain ⟨e1, e2, e3⟩ := uniqueStr_inj r1 r2 hp1 hp2 ha1 ha2 h
    simp [recTriple, e1, e2, e3]

/-- Witness for `generate_hash_deterministic_sep_free` at two concrete
separator-free records with an equal triple but different other fields. -/
theorem generate_hash_deterministic_sep_free_witness :
    ({ permit_number := "P1", address := "1 Main St", source_name := "SourceA",
       city := "X" } : PermitRecord).generate_hash =
      ({ permit_number := "P1", address := "1 Main St", source_name := "SourceA",
         owner := "Y" } : PermitRecord).generate_hash :=
  (generate_hash_deterministic_sep_free
    { permit_number := "P1", address := "1 Main St", source_name := "SourceA",
      city := "X" }
    { permit_number := "P1", address := "1 Main St", source_name := "SourceA",
      owner := "Y" }
    (by decide) (by decide) (by decide) (by decide)).1 (by decide)

/-- Claim C6 (counterexample): the empty string is an unparsable string input
to the issue_date normalizer, yet it is NOT retained verbatim - it is mapped
to absent (`None`), the same as absent input. -/
theorem issue_date_empty_not_retained :
    parse_issue_date dparseModel (PyVal.str "") = Option.none ∧
      (Option.none : Option String) ≠ some "" :=
  ⟨rfl, fun h => nomatch h⟩

/-- Claim C6 (amended): for every string input to the issue_date normalizer,
a parsable date string is re-serialized to ISO `YYYY-MM-DD`, a NONEMPTY
unparsable string is retained verbatim (not discarded), the empty string is
treated as absent (`None`) rather than retained, and normalization is total
(never raises). Stated for an arbitrary date parser `dparse` standing for
`dateutil.parser.parse`. -/
theorem issue_date_normalization (dparse : String → Option DateYMD) :
    (∀ s d, dparse s = some d → s ≠ "" →
        parse_issue_date dparse (PyVal.str s) = some (formatYMD d)) ∧
      (∀ s, dparse s = Option.none → s ≠ "" →
        parse_issue_date dparse (PyVal.str s) = some s) ∧
      parse_issue_date dparse (PyVal.str "") = Option.none := by
  refine ⟨?_, ?_, rfl⟩
  · intro s d hp hs
    simp [parse_issue_date, hs, hp]
  · intro s hp hs
    simp [parse_issue_date, hs, hp]

/-- Witness for `issue_date_normalization` on the spec's own examples:
"2024-01-15" and "January 15, 2024" both re-serialize to "2024-01-15" under
the modelled dateutil parser, and "not a date" is kept verbatim. -/
theorem issue_date_normalization_witness :
    parse_issue_date dparseModel (PyVal.str "2024-01-15") = some "2024-01-15" ∧
      parse_issue_date dparseModel (PyVal.str "January 15, 2024") = some "2024-01-15" ∧
      parse_issue_date dparseModel (PyVal.str "not a date") = some "not a date" := by
  refine ⟨?_, ?_, ?_⟩
  · have h := (issue_date_normalization dparseModel).1 "2024-01-15"
      ⟨2024, 1, 15⟩ (by decide) (by decide)
    rw [h]
    rfl
  · have h := (issue_date_normalization dparseModel).1 "January 15, 2024"
      ⟨2024, 1, 15⟩ (by decide) (by decide)
    rw [h]
    rfl
  · exact (issue_date_normalization dparseModel).2.1 "not a date" (by decide)
      (by decide)

/-- Claim C5: relative to `cutoff = now - days_back` (days) and the date
parser, the per-record filter used by both extractors keeps a record with
absent `issue_date`, keeps one whose `issue_date` does not parse, and keeps
a parsable one exactly when its date is not strictly earlier than the
cutoff.  It is total (never raises). -/
theorem date_cutoff_policy (dparse : String → Option DateYMD) (now : ℚ)
    (days_back : ℤ) (_hdb : 0 ≤ days_back) (issue : Option String) :
    (issue = Option.none →
        date_cutoff_keep dparse (now - (days_back : ℚ)) issue = true) ∧
      (∀ s, issue = some s → dparse s = Option.none →
        date_cutoff_keep dparse (now - (days_back : ℚ)) issue = true) ∧
      (∀ s d, issue = some s → s ≠ "" → dparse s = some d →
        (date_cutoff_keep dparse (now - (days_back : ℚ)) issue = true ↔
          ¬ ((dateToNum d : ℚ) < now - (days_back : ℚ)))) := by
  refine ⟨?_, ?_, ?_⟩
  · intro h
    subst h
    rfl
  · intro s h hp
    subst h
    by_cases hs : s = ""
    · simp [date_cutoff_keep, hs]
    · simp [date_cutoff_keep, hs, hp]
  · intro s d h hs hp
    subst h
    simp [date_cutoff_keep, hs, hp]

/-- Witness for `date_cutoff_policy`: with `days_back = 30` and "today" =
2026-10-12 (midnight, day number 20738), a record dated 29 days earlier
(2026-09-13) is kept and one dated 31 days earlier (2026-09-11) is
dropped. -/
theorem date_cutoff_policy_witness :
    (0 : ℤ) ≤ 30 ∧
      date_cutoff_keep dparseModel
        ((dateToNum ⟨2026, 10, 12⟩ : ℚ) - ((30 : ℤ) : ℚ))
        (some "2026-09-13") = true ∧
      date_cutoff_keep dparseModel
        ((dateToNum ⟨2026, 10, 12⟩ : ℚ) - ((30 : ℤ) : ℚ))
        (some "2026-09-11") = false := by
  have h29 := (date_cutoff_policy dparseModel (dateToNum ⟨2026, 10, 12⟩ : ℚ) 30
    (by decide) (some "2026-09-13")).2.2 "2026-09-13" ⟨2026, 9, 13⟩ rfl
    (by decide) (by decide)
  have h31 := (date_cutoff_policy dparseModel (dateToNum ⟨2026, 10, 12⟩ : ℚ) 30
    (by decide) (some "2026-09-11")).2.2 "2026-09-11" ⟨2026, 9, 11⟩ rfl
    (by decide) (by decide)
  have e13 : dateToNum ⟨2026, 9, 13⟩ = 20709 := by decide
  have e11 : dateToNum ⟨2026, 9, 11⟩ = 20707 := by decide
  have e12 : dateToNum ⟨2026, 10, 12⟩ = 20738 := by decide
  refine ⟨by decide, h29.mpr (by rw [e13, e12]; norm_num), ?_⟩
  cases hb : date_cutoff_keep dparseModel
      ((dateToNum ⟨2026, 10, 12⟩ : ℚ) - ((30 : ℤ) : ℚ)) (some "2026-09-11") with
  | false => rfl
  | true => exact absurd (by rw [e11, e12]; norm_num : (dateToNum ⟨2026, 9, 11⟩ : ℚ) < (dateToNum ⟨2026, 10, 12⟩ : ℚ) - ((30 : ℤ) : ℚ)) (h31.mp hb)

/-- Modelled from the spec (section 4.2 wording), for comparison with
`parse_estimated_value`: strip a LEADING currency symbol (only), remove the
grouping separators, then parse as a float; empty or unparsable input gives
absent. -/
def stripLeadingDollar (s : String) : String :=
  match s.data with
  | c :: r => if c = '$' then String.mk r else s
  | [] => s

/-- Modelled from the spec, continued: the whole estimated-value rule as the
spec words it, built on `stripLeadingDollar`. -/
def parse_estimated_value_specStr (s : String) : Option ℚ :=
  if s = "" then Option.none
  else
    let cleaned := stripModel (removeChar ',' (stripLeadingDollar s))
    if cleaned = "" then Option.none else pyFloatParse cleaned

/-- Claim C7 (counterexample): the code strips EVERY `$` from a string, not
just a leading currency symbol, so the input "1$2" - unparsable after
stripping only a leading symbol, hence absent per the claim - is accepted by
the code as `12.0`. -/
theorem estimated_value_strips_inner_dollar :
    parse_estimated_value_specStr "1$2" = Option.none ∧
      parse_estimated_value (PyVal.str "1$2") = some (12 : ℚ) := by
  have hv : parse_estimated_value (PyVal.str "1$2")
      = some ((1 : ℚ) * (((12 : ℕ) : ℚ) / (10 : ℚ) ^ (0 : ℕ))) := rfl
  refine ⟨rfl, ?_⟩
  rw [hv]
  norm_num

/-- Claim C7 (amended): the estimated-value normalizer accepts numeric input
directly as a float, maps empty and `None` input to absent, never raises
(it is total), and for string input removes EVERY `$` and `,` occurrence
(not only a leading symbol and separators) before trimming and float
parsing; this agrees with the spec's leading-symbol description exactly when
`$` occurs nowhere past the first character, and empty or unparsable cleaned
strings still yield absent, never zero. -/
theorem estimated_value_policy (n : ℤ) (q : ℚ) (s : String)
    (hs : '$' ∉ s.data.drop 1) :
    parse_estimated_value (PyVal.int n) = some ((n : ℤ) : ℚ) ∧
      parse_estimated_value (PyVal.float q) = some q ∧
      parse_estimated_value (PyVal.str "") = Option.none ∧
      parse_estimated_value PyVal.none = Option.none ∧
      parse_estimated_value (PyVal.str s) = parse_estimated_value_specStr s := by
  refine ⟨rfl, rfl, rfl, rfl, ?_⟩
  have hrm : removeChar '$' s = stripLeadingDollar s := by
    unfold removeChar stripLeadingDollar
    rcases hd : s.data with _ | ⟨c, rest⟩
    · have hse : s = "" := String.ext (by rw [hd])
      subst hse
      rfl
    · have hs2 : '$' ∉ rest := by
        rw [hd] at hs
        simpa using hs
      have hrest : rest.filter (fun a => a != '$') = rest :=
        List.filter_eq_self.mpr (fun a ha => by
          simp only [bne_iff_ne, ne_eq]
          exact fun h => hs2 (h ▸ ha))
      show String.mk (List.filter (fun a => a != '$') (c :: rest))
        = if c = '$' then String.mk rest else s
      by_cases hc : c = '$'
      · subst hc
        rw [if_pos rfl]
        simp [List.filter_cons, hrest]
      · rw [if_neg hc]
        refine String.ext ?_
        rw [hd]
        simp [List.filter_cons, hrest, bne_iff_ne, hc]
  by_cases hse : s = ""
  · subst hse
    rfl
  · simp only [parse_estimated_value, parse_estimated_value_specStr, hrm,
      if_neg hse]

/-- Witness for `estimated_value_policy` on the spec's own examples: numeric
`5000` passes through, and "$1,234.56" (where `$` is only leading) parses to
`1234.56` under both the code's cleaning and the spec's cleaning. -/
theorem estimated_value_policy_witness :
    parse_estimated_value (PyVal.int 5000) = some ((5000 : ℤ) : ℚ) ∧
      parse_estimated_value (PyVal.str "$1,234.56") = some (123456 / 100 : ℚ) ∧
      parse_estimated_value_specStr "$1,234.56" = some (123456 / 100 : ℚ) := by
  have h := estimated_value_policy 5000 0 "$1,234.56" (by decide)
  have hv : parse_estimated_value (PyVal.str "$1,234.56")
      = some ((1 : ℚ) * (((123456 : ℕ) : ℚ) / (10 : ℚ) ^ (2 : ℕ))) := rfl
  refine ⟨h.1, ?_, ?_⟩
  · rw [hv]
    norm_num
  · rw [← h.2.2.2.2, hv]
    norm_num

/-- Claim C2 (counterexample): a mapped source path that resolves to absent
(`None`) does NOT yield a record with that field equal to the empty string -
pydantic v2 rejects `None` (and any non-string, e.g. a number) for a
`str`-typed field, the construction fails, and the caller drops the record.
Here `record_data` is exactly what `scrape_api_source` builds when the
mapping entry for `permit_number` resolves to `None` (respectively to the
number `123`). -/
theorem normalizer_drops_none_valued_field :
    buildRecord dparseModel
        [("source_name", PyVal.str "S"), ("scraped_at", PyVal.str "T"),
         ("permit_number", PyVal.none)] = Option.none ∧
      buildRecord dparseModel
        [("source_name", PyVal.str "S"), ("scraped_at", PyVal.str "T"),
         ("permit_number", PyVal.int 123)] = Option.none :=
  ⟨rfl, rfl⟩

/-- Claim C2 (amended): for a field-value mapping in which every `str`-typed
field of the record (each field besides `issue_date` and `estimated_value`)
is either absent or an actual string, normalization succeeds and each such
field ends up a string - the provided string when present, the empty string
when absent (`vStrD Option.none = ""`); if any such field is provided with a
non-string value (including `None` from an absent mapped path), validation
fails and the record is dropped rather than defaulted. -/
theorem normalizer_string_field_policy (dparse : String → Option DateYMD)
    (kvs : List (String × PyVal)) :
    (allStrOk kvs = true →
      ∃ r, buildRecord dparse kvs = some r ∧
        r.permit_number = vStrD (pyGet kvs "permit_number") ∧
        r.work_class = vStrD (pyGet kvs "work_class") ∧
        r.description = vStrD (pyGet kvs "description") ∧
        r.address = vStrD (pyGet kvs "address") ∧
        r.city = vStrD (pyGet kvs "city") ∧
        r.state = vStrD (pyGet kvs "state") ∧
        r.zip = vStrD (pyGet kvs "zip") ∧
        r.contractor = vStrD (pyGet kvs "contractor") ∧
        r.owner = vStrD (pyGet kvs "owner") ∧
        r.source_name = vStrD (pyGet kvs "source_name") ∧
        r.scraped_at = vStrD (pyGet kvs "scraped_at")) ∧
      (allStrOk kvs = false → buildRecord dparse kvs = Option.none) ∧
      vStrD Option.none = "" := by
  refine ⟨?_, ?_, rfl⟩
  · intro hok
    rw [buildRecord_char, if_pos hok]
    exact ⟨_, rfl, rfl, rfl, rfl, rfl, rfl, rfl, rfl, rfl, rfl, rfl, rfl⟩
  · intro hbad
    rw [buildRecord_char]
    simp [hbad]

/-- Witness for `normalizer_string_field_policy`: a mapping providing
`permit_number` as a string and leaving `address` absent yields a record
with `permit_number = "P1"` and `address = ""`. -/
theorem normalizer_string_field_policy_witness :
    allStrOk [("permit_number", PyVal.str "P1"),
      ("scraped_at", PyVal.str "T")] = true ∧
      ∃ r, buildRecord dparseModel
          [("permit_number", PyVal.str "P1"), ("scraped_at", PyVal.str "T")]
          = some r ∧ r.permit_number = "P1" ∧ r.address = "" := by
  refine ⟨rfl, ?_⟩
  obtain ⟨r, hr, h1, h2, h3, h4, h5, h6, h7, h8, h9, h10, h11⟩ :=
    (normalizer_string_field_policy dparseModel
      [("permit_number", PyVal.str "P1"), ("scraped_at", PyVal.str "T")]).1 rfl
  exact ⟨r, hr, by rw [h1]; rfl, by rw [h4]; rfl⟩

lemma api_process_item_hash (dparse : String → Option DateYMD) (cutoff : ℚ)
    (sn iso : String) (mapping : List (String × String)) (item : PyVal)
    (r : PermitRecord)
    (h : api_process_item dparse cutoff sn iso mapping item = some r) :
    r.hash_id = r.generate_hash := by
  obtain ⟨r0, _, hr⟩ := api_process_item_some dparse cutoff sn iso mapping item r h
  subst hr
  simp [PermitRecord.generate_hash, uniqueStr]

lemma html_process_row_hash (dparse : String → Option DateYMD) (cutoff : ℚ)
    (sn iso : String) (fields : List (String × String)) (row : Row)
    (r : PermitRecord)
    (h : html_process_row dparse cutoff sn iso fields row = some r) :
    r.hash_id = r.generate_hash := by
  obtain ⟨r0, _, hr⟩ := html_process_row_some dparse cutoff sn iso fields row r h
  subst hr
  simp [PermitRecord.generate_hash, uniqueStr]

/-- Claim C9: every record either extractor produces carries a `hash_id`
equal to the fingerprint recomputed (by `generate_hash`) from the record's
own permit_number, address and source_name - the assignment
`record.hash_id = record.generate_hash()` runs after construction, so a
`hash_id` supplied by upstream source data is never carried into the output
(an upstream non-string `hash_id` even fails validation and drops the
record, so it cannot survive either). -/
theorem hash_id_always_recomputed (dparse : String → Option DateYMD)
    (now : ℚ) (nowIso : String) (src : Source) (days_back : ℤ)
    (fa : Except Unit PyVal) (fh : Except Unit (List Row)) :
    ((scrape_api_source dparse now nowIso src days_back fa).all
        (fun r => r.hash_id == r.generate_hash)) = true ∧
      ((scrape_html_source dparse now nowIso src days_back fh).all
        (fun r => r.hash_id == r.generate_hash)) = true := by
  constructor
  · by_cases hu : src.url = ""
    · simp [scrape_api_source, hu]
    · cases fa with
      | error e => simp [scrape_api_source, hu]
      | ok data =>
        simp only [scrape_api_source, if_neg hu]
        rw [List.all_eq_true]
        intro r hr
        obtain ⟨item, _, hf⟩ := List.mem_filterMap.mp hr
        exact beq_iff_eq.mpr
          (api_process_item_hash _ _ _ _ _ _ _ hf)
  · by_cases hu : src.url = ""
    · simp [scrape_html_source, hu]
    · by_cases hrs : src.row_selector = ""
      · simp [scrape_html_source, hu, hrs]
      · cases fh with
        | error e => simp [scrape_html_source, hu, hrs]
        | ok rows =>
          simp only [scrape_html_source, if_neg hu, if_neg hrs]
          rw [List.all_eq_true]
          intro r hr
          obtain ⟨row, _, hf⟩ := List.mem_filterMap.mp hr
          exact beq_iff_eq.mpr
            (html_process_row_hash _ _ _ _ _ _ _ hf)

/-- Claim C8: a source-level error - a missing `url` (either extractor), a
missing `row_selector` (HTML extractor), or a failed fetch (transport
failure or non-success HTTP status, the `Except.error` input) - makes the
extractor return the empty record list (it is total, so nothing is raised),
and the orchestration of one source is isolated: processing a source list is
the dispatch of its head appended to the processing of the rest, so a source
yielding `[]` leaves the remaining sources' records intact. -/
theorem source_level_errors_isolated (dparse : String → Option DateYMD)
    (now : ℚ) (nowIso : String) (src : Source) (days_back : ℤ)
    (fa : Except Unit PyVal) (fh : Except Unit (List Row)) (e e2 : Unit)
    (sr : SourceRun) (rest : List SourceRun) :
    scrape_api_source dparse now nowIso { src with url := "" } days_back fa = [] ∧
      scrape_html_source dparse now nowIso { src with url := "" } days_back fh = [] ∧
      scrape_html_source dparse now nowIso { src with row_selector := "" } days_back fh = [] ∧
      scrape_api_source dparse now nowIso src days_back (Except.error e) = [] ∧
      scrape_html_source dparse now nowIso src days_back (Except.error e2) = [] ∧
      run_sources dparse now nowIso (sr :: rest) days_back =
        dispatchSource dparse now nowIso days_back sr ++
          run_sources dparse now nowIso rest days_back := by
  refine ⟨?_, ?_, ?_, ?_, ?_, ?_⟩
  · simp [scrape_api_source]
  · simp [scrape_html_source]
  · by_cases hu : src.url = "" <;> simp [scrape_html_source, hu]
  · by_cases hu : src.url = "" <;> simp [scrape_api_source, hu]
  · by_cases hu : src.url = "" <;>
      by_cases hrs : src.row_selector = "" <;>
      simp [scrape_html_source, hu, hrs]
  · simp [run_sources]

lemma api_process_item_source_name (dparse : String → Option DateYMD)
    (cutoff : ℚ) (sn iso : String) (mapping : List (String × String))
    (item : PyVal) (r : PermitRecord)
    (h : api_process_item dparse cutoff sn iso mapping item = some r)
    (hm : ∀ fp ∈ mapping, fp.1 ≠ "source_name") : r.source_name = sn := by
  obtain ⟨r0, hb, hr⟩ := api_process_item_some dparse cutoff sn iso mapping item r h
  have h1 := buildRecord_some_source_name _ _ _ hb
  have h2 : pyGet (("source_name", PyVal.str sn) :: ("scraped_at", PyVal.str iso) ::
      mapping.map (fun fp => (fp.1, get_nested_value item fp.2))) "source_name"
      = some (PyVal.str sn) := by
    apply pyGet_source_name
    intro p hp
    obtain ⟨fp, hfp, rfl⟩ := List.mem_map.mp hp
    exact hm fp hfp
  rw [h2] at h1
  subst hr
  exact h1

lemma html_process_row_source_name (dparse : String → Option DateYMD)
    (cutoff : ℚ) (sn iso : String) (fields : List (String × String))
    (row : Row) (r : PermitRecord)
    (h : html_process_row dparse cutoff sn iso fields row = some r)
    (hm : ∀ fs ∈ fields, fs.1 ≠ "source_name") : r.source_name = sn := by
  obtain ⟨r0, hb, hr⟩ := html_process_row_some dparse cutoff sn iso fields row r h
  have h1 := buildRecord_some_source_name _ _ _ hb
  have h2 : pyGet (("source_name", PyVal.str sn) :: ("scraped_at", PyVal.str iso) ::
      fields.map (fun fs => (fs.1, PyVal.str (joinFragments (rowGet row fs.2))))) "source_name"
      = some (PyVal.str sn) := by
    apply pyGet_source_name
    intro p hp
    obtain ⟨fs, hfs, rfl⟩ := List.mem_map.mp hp
    exact hm fs hfs
  rw [h2] at h1
  subst hr
  exact h1

/-- Claim C10 (counterexample): a source whose `name` key is PRESENT but
falsy (the empty string) does not get "Unknown" - `source.get("name",
"Unknown")` falls back only for an absent key - so its records carry
`source_name = ""`, not "Unknown". -/
theorem falsy_name_not_unknown :
    (scrape_api_source dparseModel 0 "T"
        { name := some "", url := "u", mapping := [("permit_number", "pn")] } 30
        (Except.ok (PyVal.dict [("pn", PyVal.str "P1")]))).map
      (fun r => r.source_name) = [""] ∧ ("" : String) ≠ "Unknown" :=
  ⟨rfl, by decide⟩

/-- Claim C10 (amended): for a source whose `name` KEY IS ABSENT (a present
falsy name is used as is; see the counterexample), and whose mapping/field
dictionaries do not themselves remap `source_name`, every record either
extractor produces has `source_name` equal to the literal "Unknown"; that
value participates in `generate_hash`, so records from two such nameless
sources with equal permit_number and address get equal hash identities. -/
theorem absent_name_gives_unknown (dparse : String → Option DateYMD)
    (now : ℚ) (nowIso : String) (src : Source) (days_back : ℤ)
    (fa : Except Unit PyVal) (fh : Except Unit (List Row))
    (hn : src.name = Option.none)
    (hm : ∀ fp ∈ src.mapping, fp.1 ≠ "source_name")
    (hf : ∀ fs ∈ src.fields, fs.1 ≠ "source_name") :
    ((scrape_api_source dparse now nowIso src days_back fa).all
        (fun r => r.source_name == "Unknown")) = true ∧
      ((scrape_html_source dparse now nowIso src days_back fh).all
        (fun r => r.source_name == "Unknown")) = true ∧
      ∀ r1 r2 : PermitRecord, r1.source_name = "Unknown" →
        r2.source_name = "Unknown" → r1.permit_number = r2.permit_number →
        r1.address = r2.address → r1.generate_hash = r2.generate_hash := by
  refine ⟨?_, ?_, ?_⟩
  · by_cases hu : src.url = ""
    · simp [scrape_api_source, hu]
    · cases fa with
      | error e => simp [scrape_api_source, hu]
      | ok data =>
        simp only [scrape_api_source, if_neg hu, hn, Option.getD_none]
        rw [List.all_eq_true]
        intro r hr
        obtain ⟨item, _, hfm⟩ := List.mem_filterMap.mp hr
        exact beq_iff_eq.mpr
          (api_process_item_source_name _ _ _ _ _ _ _ hfm hm)
  · by_cases hu : src.url = ""
    · simp [scrape_html_source, hu]
    · by_cases hrs : src.row_selector = ""
      · simp [scrape_html_source, hu, hrs]
      · cases fh with
        | error e => simp [scrape_html_source, hu, hrs]
        | ok rows =>
          simp only [scrape_html_source, if_neg hu, if_neg hrs, hn,
            Option.getD_none]
          rw [List.all_eq_true]
          intro r hr
          obtain ⟨row, _, hfm⟩ := List.mem_filterMap.mp hr
          exact beq_iff_eq.mpr
            (html_process_row_source_name _ _ _ _ _ _ _ hfm hf)
  · intro r1 r2 h1 h2 hpn had
    exact generate_hash_congr r1 r2 hpn had (by rw [h1, h2])

/-- Witness for `absent_name_gives_unknown`: a concrete nameless API source
whose one item becomes one record, necessarily named "Unknown". -/
theorem absent_name_gives_unknown_witness :
    ((scrape_api_source dparseModel 0 "T"
        { url := "u", mapping := [("permit_number", "pn")] } 30
        (Except.ok (PyVal.dict [("pn", PyVal.str "P1")]))).all
      (fun r => r.source_name == "Unknown")) = true :=
  (absent_name_gives_unknown dparseModel 0 "T"
    { url := "u", mapping := [("permit_number", "pn")] } 30
    (Except.ok (PyVal.dict [("pn", PyVal.str "P1")])) (Except.error ())
    rfl (by decide) (by decide)).1

/-- The duplicated API source of the missing-deduplication run: two sources
with the same name, URL and mapping. -/
def srcDup : Source :=
  { name := some "S", url := "u",
    mapping := [("permit_number", "pn"), ("address", "ad")] }

/-- The JSON body both copies of `srcDup` fetch. -/
def bodyDup : PyVal :=
  PyVal.dict [("pn", PyVal.str "P1"), ("ad", PyVal.str "1 Main St")]

/-- The full-run output (`main`'s `all_records`, which is exported as is)
for the duplicated source. -/
def dupRunOut : List PermitRecord :=
  run_sources dparseModel 0 "T"
    [{ src := srcDup, apiFetch := Except.ok bodyDup },
     { src := srcDup, apiFetch := Except.ok bodyDup }] 30

/-- Claim C1 (code evaluated at the failing input): `main` never groups by
`hash_id` - it only concatenates the per-source record lists and exports
them - so two extracted items with the same (permit_number, address,
source_name) triple BOTH appear in the final output: the run of two
identical sources yields two records with identical triples (hence identical
`hash_id`, the two records being equal), where the claim requires exactly
one survivor. -/
theorem main_output_keeps_hash_duplicates :
    dupRunOut.map recTriple
        = [("P1", "1 Main St", "S"), ("P1", "1 Main St", "S")] ∧
      dupRunOut.head? = dupRunOut.getLast? :=
  ⟨rfl, rfl⟩
